import Mathlib

/-!
# Shallow embedding of the auth-sdk client (TypeScript) in Lean 4

This file models the session/token lifecycle manager of the SDK:

* `src/types/index.ts` — role and permission vocabulary, the `AuthError`
  taxonomy, and the `ProtectedRoute` access-control evaluator;
* `src/providers/AuthProvider.tsx` — the `authReducer` session state store;
* `src/services/api.service.ts` — the `ApiService` class: token storage,
  the axios response interceptor (401 refresh-and-retry), `handleError`
  normalization, `refreshAccessToken`, `verifyToken`, `logout`, `register`.

Network responses are supplied as explicit oracle values (the remote server
is an external collaborator), and side effects (network calls issued, the
`onTokenExpired` callback firing) are returned as explicit counters.
Roles and permissions are modelled as strings, as in the JSON wire format;
an unknown role string is therefore representable, matching the defensive
`|| 0` fallback in the source's role hierarchy lookup.
-/

namespace AuthSDK

/-! ## Roles, permissions, users (`src/types/index.ts`) -/

/-- `UserRole` enum values (`src/types/index.ts`). Role is kept as a raw
string so that values outside the enum (possible on the wire) are
representable. -/
def UserRole.USER : String := "user"

def UserRole.PREMIUM : String := "premium"

def UserRole.MODERATOR : String := "moderator"

def UserRole.ADMIN : String := "admin"

def UserRole.SUPER_ADMIN : String := "super_admin"

/-- The fields of the `User` record that the session logic reads.
The remaining fields of the TS interface (metadata, preferences,
customData) are never consulted by the code under verification. -/
structure User where
  uid : String
  email : String
  role : String
  permissions : List String
  isActive : Bool
  deriving Repr, DecidableEq

/-! ## Access-control evaluator (`ProtectedRoute`, `src/types/index.ts`) -/

/-- The `roleHierarchy` table inside `ProtectedRoute`, combined with the
`roleHierarchy[role] || 0` lookup: the five known roles map to 1..5 and
any other string maps to 0. -/
def roleHierarchy (role : String) : Nat :=
  if role = UserRole.USER then 1
  else if role = UserRole.PREMIUM then 2
  else if role = UserRole.MODERATOR then 3
  else if role = UserRole.ADMIN then 4
  else if role = UserRole.SUPER_ADMIN then 5
  else 0

/-- The possible render outcomes of `ProtectedRoute`. -/
inductive AccessResult where
  | loading
  | fallback
  | roleDenied
  | permissionDenied
  | granted
  deriving Repr, DecidableEq

/-- The body of the `ProtectedRoute` component: loading gate, then
authentication gate, then the role check (equality short-circuit, else
hierarchy comparison), then the all-permissions-present check. -/
def protectedRouteCheck (loading : Bool) (isAuthenticated : Bool)
    (user : Option User) (requiredRole : Option String)
    (requiredPermissions : Option (List String)) : AccessResult :=
  if loading then .loading
  else
    match user with
    | none => .fallback
    | some u =>
      if !isAuthenticated then .fallback
      else
        let roleOk :=
          match requiredRole with
          | none => true
          | some r =>
            if u.role = r then true
            else decide (roleHierarchy u.role ≥ roleHierarchy r)
        if !roleOk then .roleDenied
        else
          let permOk :=
            match requiredPermissions with
            | none => true
            | some ps =>
              if ps.length > 0 then ps.all (fun p => u.permissions.contains p)
              else true
          if !permOk then .permissionDenied
          else .granted

/-- Access is granted when `ProtectedRoute` renders its children. -/
def hasAccess (loading : Bool) (isAuthenticated : Bool) (user : Option User)
    (requiredRole : Option String) (requiredPermissions : Option (List String)) :
    Bool :=
  protectedRouteCheck loading isAuthenticated user requiredRole
    requiredPermissions = .granted

/-! ## Session state store (`authReducer`, `src/providers/AuthProvider.tsx`) -/

/-- `AuthState` (`src/types/index.ts`). -/
structure AuthState where
  user : Option User
  token : Option String
  refreshToken : Option String
  loading : Bool
  error : Option String
  isAuthenticated : Bool
  isAdmin : Bool
  isSuperAdmin : Bool
  deriving Repr, DecidableEq

/-- `initialState` (`src/providers/AuthProvider.tsx`). -/
def initialState : AuthState :=
  { user := none
    token := none
    refreshToken := none
    loading := true
    error := none
    isAuthenticated := false
    isAdmin := false
    isSuperAdmin := false }

/-- `AuthAction` (`src/providers/AuthProvider.tsx`). -/
inductive AuthAction where
  | setLoading (payload : Bool)
  | setUser (payload : Option User)
  | setToken (payload : Option String)
  | setRefreshToken (payload : Option String)
  | setError (payload : Option String)
  | clearError
  | logout
  deriving Repr, DecidableEq

/-- `user?.role === UserRole.ADMIN || user?.role === UserRole.SUPER_ADMIN || false`. -/
def derivedIsAdmin (user : Option User) : Bool :=
  match user with
  | some u => u.role = UserRole.ADMIN || u.role = UserRole.SUPER_ADMIN
  | none => false

/-- `user?.role === UserRole.SUPER_ADMIN || false`. -/
def derivedIsSuperAdmin (user : Option User) : Bool :=
  match user with
  | some u => u.role = UserRole.SUPER_ADMIN
  | none => false

/-- `authReducer` (`src/providers/AuthProvider.tsx`). -/
def authReducer (state : AuthState) (action : AuthAction) : AuthState :=
  match action with
  | .setLoading b => { state with loading := b }
  | .setUser u =>
      { state with
        user := u
        isAuthenticated := u.isSome
        isAdmin := derivedIsAdmin u
        isSuperAdmin := derivedIsSuperAdmin u
        loading := false
        error := none }
  | .setToken t => { state with token := t }
  | .setRefreshToken t => { state with refreshToken := t }
  | .setError e => { state with error := e, loading := false }
  | .clearError => { state with error := none }
  | .logout => { initialState with loading := false }

/-! ## Error taxonomy and normalization (`src/services/api.service.ts`) -/

/-- `AuthErrorCode` enum (`src/types/index.ts`). -/
inductive AuthErrorCode where
  | INVALID_CREDENTIALS
  | TOKEN_EXPIRED
  | INSUFFICIENT_PERMISSIONS
  | NETWORK_ERROR
  | VALIDATION_ERROR
  | USER_NOT_FOUND
  | EMAIL_ALREADY_EXISTS
  | UNKNOWN_ERROR
  deriving Repr, DecidableEq

/-- `AuthError` (`src/types/index.ts`): the uniform normalized error shape. -/
structure AuthError where
  code : AuthErrorCode
  message : String
  details : Option String
  deriving Repr, DecidableEq

/-- An axios rejection, as `handleError` distinguishes it:
a response was received (`error.response`, carrying the HTTP status and the
envelope's `error`/`message` fields), the request was sent but no response
arrived (`error.request`), or the request could not be set up. -/
inductive AxiosError where
  | response (status : Nat) (errorCode : Option String)
      (message : Option String) (details : Option String)
  | request
  | setup (message : Option String)
  deriving Repr, DecidableEq

/-- `mapErrorCode` (`src/services/api.service.ts`): the `codeMap` lookup
with `|| AuthErrorCode.UNKNOWN_ERROR` fallback. -/
def mapErrorCode (code : String) : AuthErrorCode :=
  if code = "INVALID_CREDENTIALS" then .INVALID_CREDENTIALS
  else if code = "TOKEN_EXPIRED" then .TOKEN_EXPIRED
  else if code = "INSUFFICIENT_PERMISSIONS" then .INSUFFICIENT_PERMISSIONS
  else if code = "VALIDATION_ERROR" then .VALIDATION_ERROR
  else if code = "USER_NOT_FOUND" then .USER_NOT_FOUND
  else if code = "EMAIL_ALREADY_EXISTS" then .EMAIL_ALREADY_EXISTS
  else .UNKNOWN_ERROR

/-- `handleError` (`src/services/api.service.ts`). -/
def handleError (error : AxiosError) : AuthError :=
  match error with
  | .response _ errorCode message details =>
      { code := mapErrorCode (errorCode.getD "UNKNOWN_ERROR")
        message := message.getD "An error occurred"
        details := details }
  | .request =>
      { code := .NETWORK_ERROR
        message := "Network error occurred"
        details := none }
  | .setup message =>
      { code := .UNKNOWN_ERROR
        message := message.getD "Unknown error occurred"
        details := none }

/-! ## Credential store (`ApiService` token fields + localStorage) -/

/-- The `ApiService` credential state: the `token` and `refreshToken`
fields, kept in sync with `localStorage` by `saveTokensToStorage` /
`clearTokensFromStorage`. -/
structure Creds where
  token : Option String
  refreshToken : Option String
  deriving Repr, DecidableEq

/-- `clearTokensFromStorage`. -/
def clearTokensFromStorage : Creds :=
  { token := none, refreshToken := none }

/-- `saveTokensToStorage`. -/
def saveTokensToStorage (token refreshToken : String) : Creds :=
  { token := some token, refreshToken := some refreshToken }

/-! ## `refreshAccessToken` -/

/-- Server answer to `POST /api/auth/refresh`, per the consumed REST
contract: a resolved response carries the `{success, data?}` envelope
(`success (token)` for `success:true` with the new access token,
`rejectedEnvelope` for `success:false`), and `transportReject` is an
axios rejection (no usable response). -/
inductive RefreshResponse where
  | success (token : String)
  | rejectedEnvelope
  | transportReject (e : AuthError)
  deriving Repr, DecidableEq

/-- Outcome of an async method: the promise resolved with a value or
rejected (threw). -/
inductive AsyncResult (α : Type) where
  | resolved (value : α)
  | threw (message : String)
  deriving Repr, DecidableEq

/-- `refreshAccessToken` (`src/services/api.service.ts`). Returns the
outcome, the credential state afterwards, and how many network calls
were made (the `POST /api/auth/refresh` count). -/
def refreshAccessToken (st : Creds) (resp : RefreshResponse) :
    AsyncResult Bool × Creds × Nat :=
  match st.refreshToken with
  | none => (.threw "No refresh token available", st, 0)
  | some _ =>
      match resp with
      | .success token => (.resolved true, { st with token := some token }, 1)
      | .rejectedEnvelope => (.resolved false, clearTokensFromStorage, 1)
      | .transportReject e => (.threw e.message, st, 1)

/-! ## `verifyToken` -/

/-- Server answer to `GET /api/auth/verify`: `success (user)` for a
`success:true` envelope carrying the user, `failureEnvelope` for
`success:false`, `transportReject` for a rejected request. -/
inductive VerifyResponse where
  | success (user : User)
  | failureEnvelope
  | transportReject (e : AuthError)
  deriving Repr, DecidableEq

/-- `verifyToken` (`src/services/api.service.ts`). Returns the user or
`none`, the credential state afterwards, and the network call count.
The function always resolves (errors are caught internally). -/
def verifyToken (st : Creds) (resp : VerifyResponse) :
    Option User × Creds × Nat :=
  match st.token with
  | none => (none, st, 0)
  | some _ =>
      match resp with
      | .success user => (some user, st, 1)
      | .failureEnvelope => (none, st, 1)
      | .transportReject _ => (none, clearTokensFromStorage, 1)

/-! ## `logout` -/

/-- Server answer to `POST /api/auth/logout`: either the call resolved or
it was rejected. -/
inductive LogoutResponse where
  | ok
  | transportReject (e : AuthError)
  deriving Repr, DecidableEq

/-- `ApiService.logout` (`src/services/api.service.ts`): the remote call's
failure is swallowed and the local tokens are always cleared. Always
resolves. -/
def serviceLogout (_st : Creds) (resp : LogoutResponse) : Creds × Nat :=
  match resp with
  | .ok => (clearTokensFromStorage, 1)
  | .transportReject _ => (clearTokensFromStorage, 1)

/-- The provider-level `logout` (`src/providers/AuthProvider.tsx`):
awaits `apiService.logout()` (errors logged and swallowed) and in the
`finally` block dispatches `LOGOUT`. -/
def providerLogout (sessionState : AuthState) (st : Creds)
    (resp : LogoutResponse) : AuthState × Creds :=
  let (st', _) := serviceLogout st resp
  (authReducer sessionState .logout, st')

/-! ## Response interceptor (`setupInterceptors`, `src/services/api.service.ts`) -/

/-- The slice of an axios request config the interceptor reads and writes:
the mutable `_retry` marker and the `Authorization` header. -/
structure RequestConfig where
  url : String
  retryFlag : Bool
  authHeader : Option String
  deriving Repr, DecidableEq

/-- `error.response?.status`. -/
def errorStatus : AxiosError → Option Nat
  | .response status _ _ _ => some status
  | .request => none
  | .setup _ => none

/-- What the rejection handler hands back to the awaiting caller: the
re-issued original request (`return this.api(originalRequest)`) or a
rejection with the normalized error. -/
inductive InterceptOutcome where
  | retried (cfg : RequestConfig)
  | rejectedWith (e : AuthError)
  deriving Repr, DecidableEq

/-- The response interceptor's rejection handler (`setupInterceptors`).
Returns the outcome, the credential state afterwards, the number of
refresh network calls issued, and the number of `onTokenExpired`
invocations. `refreshResp` is the server's answer should a refresh call
be made; `onTokenExpiredRegistered` reflects `this.config.onTokenExpired`
being set. -/
def onResponseError (cfg : RequestConfig) (error : AxiosError) (st : Creds)
    (refreshResp : RefreshResponse) (onTokenExpiredRegistered : Bool) :
    InterceptOutcome × Creds × Nat × Nat :=
  if errorStatus error == some 401 && st.refreshToken.isSome && !cfg.retryFlag then
    let cfg := { cfg with retryFlag := true }
    match refreshAccessToken st refreshResp with
    | (.resolved true, st', n) =>
        (.retried { cfg with authHeader := st'.token.map (fun t => "Bearer " ++ t) },
          st', n, 0)
    | (.resolved false, st', n) =>
        (.rejectedWith (handleError error), st', n, 0)
    | (.threw _, _, n) =>
        (.rejectedWith (handleError error), clearTokensFromStorage, n,
          if onTokenExpiredRegistered then 1 else 0)
  else
    (.rejectedWith (handleError error), st, 0, 0)

/-- N in-flight requests all rejected with a 401: the event loop runs each
request's rejection handler (in some order; serialized here in list
order). The source holds no shared in-flight refresh handle, so each
handler independently evaluates the refresh condition against the
credential state it observes; the interleaving cannot reduce the call
count because nothing a completed refresh writes is consulted by the
guard of a later handler. Returns the outcomes, the final credential
state, the total refresh network calls, and the total `onTokenExpired`
invocations. -/
def handleConcurrent401s (cfgs : List RequestConfig) (st : Creds)
    (refreshResp : RefreshResponse) (onTokenExpiredRegistered : Bool) :
    List InterceptOutcome × Creds × Nat × Nat :=
  match cfgs with
  | [] => ([], st, 0, 0)
  | cfg :: rest =>
      let (r, st', n, k) :=
        onResponseError cfg (.response 401 none none none) st refreshResp
          onTokenExpiredRegistered
      let (rs, st'', m, k') :=
        handleConcurrent401s rest st' refreshResp onTokenExpiredRegistered
      (r :: rs, st'', n + m, k + k')

/-! ## `register` (representative Auth Session Service operation) -/

/-- Server answer to `POST /api/auth/register`: a `success:true` envelope
carrying `{user, token, refreshToken}`, a `success:false` envelope with an
optional `message`, or a rejected request (already normalized by the
response interceptor before `register`'s `await` observes it). -/
inductive RegisterResponse where
  | success (user : User) (token : String) (refreshTok : String)
  | failureEnvelope (message : Option String)
  | transportReject (e : AuthError)
  deriving Repr, DecidableEq

/-- What a failed service operation throws to its caller: the normalized
`AuthError` propagated from the interceptor, or the plain
`new Error(message)` the operation itself throws on a `success:false`
envelope. -/
inductive ServiceFailure where
  | authError (e : AuthError)
  | bareError (message : String)
  deriving Repr, DecidableEq

/-- `register` (`src/services/api.service.ts`). `login` and
`loginWithFirebase` have the identical success/failure structure. -/
def register (st : Creds) (resp : RegisterResponse) :
    Except ServiceFailure (User × String × String) × Creds :=
  match resp with
  | .success user token refreshTok =>
      (.ok (user, token, refreshTok), saveTokensToStorage token refreshTok)
  | .failureEnvelope message =>
      (.error (.bareError (message.getD "Registration failed")), st)
  | .transportReject e =>
      (.error (.authError e), st)

/-- A user record with the given role and permissions, for concrete
instances. -/
def mkUser (role : String) (permissions : List String) : User :=
  { uid := "uid-1"
    email := "a@b.com"
    role := role
    permissions := permissions
    isActive := true }

/-! ## Auxiliary predicates used by the verification statements -/

/-- A thrown service failure is in the normalized `{code, message, details?}`
shape exactly when it is an `AuthError`; a plain `new Error(message)` is not. -/
def ServiceFailure.isNormalized : ServiceFailure → Bool
  | .authError _ => true
  | .bareError _ => false

/-- The session-store invariant relating the derived flags to the user
field: `isAuthenticated` tracks user presence, `isAdmin` implies
`isAuthenticated`, and `isSuperAdmin` implies `isAdmin`. -/
def stateInvariant (s : AuthState) : Prop :=
  (s.isAuthenticated = true ↔ s.user ≠ none) ∧
  (s.isAdmin = true → s.isAuthenticated = true) ∧
  (s.isSuperAdmin = true → s.isAdmin = true)

/-! ## Theorems -/

/-- Granting for an authenticated user decomposes into the role-hierarchy
condition for the required role (when given) and the permission-membership
condition for the required permissions (when given). -/
theorem hasAccess_granted_iff (u : User) (rr : Option String)
    (rp : Option (List String)) :
    hasAccess false true (some u) rr rp = true ↔
      ((∀ r, rr = some r → roleHierarchy u.role ≥ roleHierarchy r) ∧
       (∀ ps, rp = some ps → ∀ p ∈ ps, p ∈ u.permissions)) := by
  have hperm : ∀ ps : List String,
      (if ps.length > 0 then ps.all (fun p => u.permissions.contains p)
        else true) = true ↔ ∀ p ∈ ps, p ∈ u.permissions := by
    intro ps
    cases ps with
    | nil => simp
    | cons q qs => simp [List.all_eq_true]
  have hrole : ∀ r : String,
      (if u.role = r then true
        else decide (roleHierarchy u.role ≥ roleHierarchy r)) = true ↔
      roleHierarchy u.role ≥ roleHierarchy r := by
    intro r
    by_cases h : u.role = r
    · simp [h]
    · simp [h]
  cases rr with
  | none =>
    cases rp with
    | none => simp [hasAccess, protectedRouteCheck]
    | some ps =>
      simpa [hasAccess, protectedRouteCheck] using hperm ps
  | some r =>
    cases rp with
    | none =>
      simpa [hasAccess, protectedRouteCheck] using hrole r
    | some ps =>
      by_cases h : u.role = r
      · cases ps with
        | nil => simp [hasAccess, protectedRouteCheck, h]
        | cons q qs => simp [hasAccess, protectedRouteCheck, h, List.all_eq_true]
      · cases ps with
        | nil => simp [hasAccess, protectedRouteCheck, h]
        | cons q qs =>
          simp only [hasAccess, protectedRouteCheck]
          by_cases hlt : roleHierarchy u.role < roleHierarchy r
          · simp [h, hlt, Nat.not_le_of_lt hlt]
          · simp [h, hlt, Nat.le_of_not_lt hlt, List.all_eq_true]

/-- Claim C2: for every authenticated user and every required role, the
access check grants role-based access iff the hierarchy level of the
user's role (USER < PREMIUM < MODERATOR < ADMIN < SUPER_ADMIN, unknown
roles at level 0) is at least the required role's level; in particular
ADMIN satisfies a MODERATOR requirement and USER does not satisfy an
ADMIN requirement. -/
theorem role_access_iff_hierarchy_level (u : User) (r s : String)
    (hs : s ≠ UserRole.USER ∧ s ≠ UserRole.PREMIUM ∧ s ≠ UserRole.MODERATOR ∧
      s ≠ UserRole.ADMIN ∧ s ≠ UserRole.SUPER_ADMIN) :
    (hasAccess false true (some u) (some r) none = true ↔
      roleHierarchy u.role ≥ roleHierarchy r) ∧
    roleHierarchy s = 0 ∧
    hasAccess false true (some (mkUser UserRole.ADMIN []))
      (some UserRole.MODERATOR) none = true ∧
    hasAccess false true (some (mkUser UserRole.USER []))
      (some UserRole.ADMIN) none = false := by
  obtain ⟨h1, h2, h3, h4, h5⟩ := hs
  refine ⟨?_, ?_, ?_, ?_⟩
  · rw [hasAccess_granted_iff]
    constructor
    · intro h
      exact h.1 r rfl
    · intro h
      refine ⟨fun r' hr' => ?_, fun ps hps => Option.noConfusion hps⟩
      cases hr'
      exact h
  · simp [roleHierarchy, h1, h2, h3, h4, h5]
  · rfl
  · rfl

/-- Claim C2 witness: the theorem instantiated at a PREMIUM user, a USER
requirement, and the unknown role string "guest". -/
theorem role_access_iff_hierarchy_level_witness :
    (hasAccess false true (some (mkUser UserRole.PREMIUM []))
        (some UserRole.USER) none = true ↔
      roleHierarchy (mkUser UserRole.PREMIUM []).role ≥
        roleHierarchy UserRole.USER) ∧
    roleHierarchy "guest" = 0 ∧
    hasAccess false true (some (mkUser UserRole.ADMIN []))
      (some UserRole.MODERATOR) none = true ∧
    hasAccess false true (some (mkUser UserRole.USER []))
      (some UserRole.ADMIN) none = false :=
  role_access_iff_hierarchy_level (mkUser UserRole.PREMIUM []) UserRole.USER
    "guest" (by decide)

/-- Claim C3: for every user and required permission list, the permission
check passes iff every required permission is a member of the user's
permission set (an empty requirement always passes); with both a required
role and required permissions, access is granted iff both checks pass. -/
theorem permission_access_iff_membership (u : User) (ps : List String)
    (r : String) :
    (hasAccess false true (some u) none (some ps) = true ↔
      ∀ p ∈ ps, p ∈ u.permissions) ∧
    hasAccess false true (some u) none (some []) = true ∧
    (hasAccess false true (some u) (some r) (some ps) = true ↔
      (roleHierarchy u.role ≥ roleHierarchy r ∧
        ∀ p ∈ ps, p ∈ u.permissions)) := by
  refine ⟨?_, ?_, ?_⟩
  · rw [hasAccess_granted_iff]
    constructor
    · intro h
      exact h.2 ps rfl
    · intro h
      refine ⟨fun r' hr' => Option.noConfusion hr', fun ps' hps' => ?_⟩
      cases hps'
      exact h
  · rw [hasAccess_granted_iff]
    refine ⟨fun r' hr' => Option.noConfusion hr', fun ps' hps' => ?_⟩
    cases hps'
    intro p hp
    cases hp
  · rw [hasAccess_granted_iff]
    constructor
    · intro h
      exact ⟨h.1 r rfl, h.2 ps rfl⟩
    · intro h
      refine ⟨fun r' hr' => ?_, fun ps' hps' => ?_⟩
      · cases hr'
        exact h.1
      · cases hps'
        exact h.2

/-- Claim C8: the `SET_USER` transition recomputes the three derived flags
from the assigned user and clears loading and error: `isAuthenticated` iff
the user is non-null, `isAdmin` iff the role is ADMIN or SUPER_ADMIN,
`isSuperAdmin` iff the role is SUPER_ADMIN; a login with role "user"
yields authenticated-but-not-admin, one with role "super_admin" yields
admin and super-admin. -/
theorem setUser_recomputes_derived_flags (s : AuthState) (u : Option User) :
    ((authReducer s (.setUser u)).isAuthenticated = true ↔ u ≠ none) ∧
    ((authReducer s (.setUser u)).isAdmin = true ↔
      ∃ usr, u = some usr ∧
        (usr.role = UserRole.ADMIN ∨ usr.role = UserRole.SUPER_ADMIN)) ∧
    ((authReducer s (.setUser u)).isSuperAdmin = true ↔
      ∃ usr, u = some usr ∧ usr.role = UserRole.SUPER_ADMIN) ∧
    (authReducer s (.setUser u)).loading = false ∧
    (authReducer s (.setUser u)).error = none ∧
    (authReducer s (.setUser u)).user = u ∧
    (authReducer s (.setUser (some (mkUser UserRole.USER [])))).isAuthenticated
      = true ∧
    (authReducer s (.setUser (some (mkUser UserRole.USER [])))).isAdmin
      = false ∧
    (authReducer s (.setUser (some (mkUser UserRole.SUPER_ADMIN [])))).isAdmin
      = true ∧
    (authReducer s
      (.setUser (some (mkUser UserRole.SUPER_ADMIN [])))).isSuperAdmin
      = true := by
  refine ⟨?_, ?_, ?_, rfl, rfl, rfl, rfl, ?_, rfl, rfl⟩
  · cases u <;> simp [authReducer]
  · cases u <;> simp [authReducer, derivedIsAdmin]
  · cases u <;> simp [authReducer, derivedIsSuperAdmin]
  · simp [authReducer, derivedIsAdmin, mkUser, UserRole.USER, UserRole.ADMIN,
      UserRole.SUPER_ADMIN]

/-- Invariant preservation: each reducer action keeps `stateInvariant`. -/
theorem authReducer_preserves_invariant (s : AuthState) (a : AuthAction)
    (h : stateInvariant s) : stateInvariant (authReducer s a) := by
  obtain ⟨h1, h2, h3⟩ := h
  cases a with
  | setLoading b => exact ⟨h1, h2, h3⟩
  | setUser u =>
    cases u with
    | none =>
      exact ⟨by simp [authReducer], by simp [authReducer, derivedIsAdmin],
        by simp [authReducer, derivedIsAdmin, derivedIsSuperAdmin]⟩
    | some usr =>
      refine ⟨by simp [authReducer], fun _ => by simp [authReducer], ?_⟩
      intro hsa
      simp only [authReducer, derivedIsSuperAdmin] at hsa
      simp [authReducer, derivedIsAdmin, hsa]
  | setToken t => exact ⟨h1, h2, h3⟩
  | setRefreshToken t => exact ⟨h1, h2, h3⟩
  | setError e => exact ⟨h1, h2, h3⟩
  | clearError => exact ⟨h1, h2, h3⟩
  | logout =>
    exact ⟨by simp [authReducer, initialState], by simp [authReducer, initialState],
      by simp [authReducer, initialState]⟩

/-- Invariant preservation lifted to any action sequence. -/
theorem foldl_preserves_invariant (acts : List AuthAction) (s : AuthState)
    (h : stateInvariant s) : stateInvariant (acts.foldl authReducer s) := by
  induction acts generalizing s with
  | nil => exact h
  | cons a rest ih => exact ih _ (authReducer_preserves_invariant s a h)

/-- Claim C10: in every state reachable from the initial state by reducer
actions, `isAuthenticated` holds iff the user is non-null, `isAdmin`
implies `isAuthenticated`, and `isSuperAdmin` implies `isAdmin`. -/
theorem reachable_states_satisfy_invariant (acts : List AuthAction) :
    stateInvariant (acts.foldl authReducer initialState) :=
  foldl_preserves_invariant acts initialState
    ⟨by simp [initialState], by simp [initialState], by simp [initialState]⟩

/-- Claim C5: with no stored refresh token, `refreshAccessToken` fails
immediately with zero network calls, whatever the server would have
answered; when the server rejects the refresh with a `success:false`
envelope, it clears both stored tokens and resolves with `false` rather
than throwing. -/
theorem refreshAccessToken_guard_and_rejection (t : Option String)
    (rt : String) (resp : RefreshResponse) :
    refreshAccessToken { token := t, refreshToken := none } resp =
      (.threw "No refresh token available",
        { token := t, refreshToken := none }, 0) ∧
    refreshAccessToken { token := t, refreshToken := some rt }
        .rejectedEnvelope =
      (.resolved false, clearTokensFromStorage, 1) :=
  ⟨rfl, rfl⟩

/-- Claim C6 counterexample: a stored token verified against a server
answering a `success:false` envelope is a failed verification that
returns `none` yet leaves both stored credentials in place, so "any
failure clears the stored credentials" is false on the code. -/
theorem verifyToken_envelope_failure_retains_creds :
    verifyToken { token := some "t1", refreshToken := some "r1" }
        .failureEnvelope =
      (none, { token := some "t1", refreshToken := some "r1" }, 1) ∧
    ({ token := some "t1", refreshToken := some "r1" } : Creds) ≠
      clearTokensFromStorage :=
  ⟨rfl, by decide⟩

/-- Claim C6 amended: `verifyToken` returns the current user on success
and `none` otherwise and never propagates an error (it resolves on every
server answer); it clears the stored credentials exactly when the
verification request throws, while a `success:false` envelope yields
`none` with the credentials left in place, and a missing token yields
`none` with no network call. -/
theorem verifyToken_spec (rt : Option String) (tok : String) (u : User)
    (e : AuthError) (resp : VerifyResponse) :
    verifyToken { token := some tok, refreshToken := rt } (.success u) =
      (some u, { token := some tok, refreshToken := rt }, 1) ∧
    verifyToken { token := some tok, refreshToken := rt }
        (.transportReject e) =
      (none, clearTokensFromStorage, 1) ∧
    verifyToken { token := some tok, refreshToken := rt } .failureEnvelope =
      (none, { token := some tok, refreshToken := rt }, 1) ∧
    verifyToken { token := none, refreshToken := rt } resp =
      (none, { token := none, refreshToken := rt }, 0) :=
  ⟨rfl, rfl, rfl, rfl⟩

/-- Claim C7: `logout` never fails to the caller: for every server answer,
including a rejected remote logout call, the stored credentials are
cleared and the session state is reset to the logged-out state. -/
theorem logout_always_clears_and_resets (sessionState : AuthState)
    (st : Creds) (resp : LogoutResponse) :
    providerLogout sessionState st resp =
      ({ initialState with loading := false }, clearTokensFromStorage) ∧
    (serviceLogout st resp).1 = clearTokensFromStorage := by
  cases resp <;> exact ⟨rfl, rfl⟩

/-- Claim C4 counterexample: a 401-intercepted request whose refresh
attempt fails because the server answers the refresh with a
`success:false` envelope surfaces the original failure and ends with
cleared credentials, but invokes the registered `onTokenExpired` callback
zero times, not once. -/
theorem interceptor_envelope_reject_skips_callback :
    onResponseError
      { url := "/api/users/profile", retryFlag := false, authHeader := none }
      (.response 401 none none none)
      { token := some "t1", refreshToken := some "r1" }
      .rejectedEnvelope true =
      (.rejectedWith (handleError (.response 401 none none none)),
        clearTokensFromStorage, 1, 0) :=
  rfl

/-- Claim C4 amended: when the refresh attempt triggered by a 401
interception fails, the original request's failure is surfaced as the
normalized original error and the stored credentials end up cleared; the
registered `onTokenExpired` callback is invoked exactly once when the
refresh attempt throws, and is not invoked when the refresh resolves with
`false` after the server rejects the refresh envelope (the refresh itself
having already cleared the credentials). -/
theorem interceptor_refresh_failure_paths (cfg : RequestConfig) (st : Creds)
    (error : AxiosError) (e : AuthError) (rt : String)
    (hcfg : cfg.retryFlag = false) (hst : st.refreshToken = some rt)
    (herr : errorStatus error = some 401) :
    onResponseError cfg error st (.transportReject e) true =
      (.rejectedWith (handleError error), clearTokensFromStorage, 1, 1) ∧
    onResponseError cfg error st .rejectedEnvelope true =
      (.rejectedWith (handleError error), clearTokensFromStorage, 1, 0) := by
  constructor <;> simp [onResponseError, refreshAccessToken, hst, herr, hcfg]

/-- Claim C4 witness: the amended theorem at a concrete fresh request, a
concrete credential state, and the two failing refresh answers. -/
theorem interceptor_refresh_failure_paths_witness :
    ({ url := "/api/users/profile", retryFlag := false,
        authHeader := none } : RequestConfig).retryFlag = false ∧
    ({ token := some "t0", refreshToken := some "r0" } : Creds).refreshToken =
      some "r0" ∧
    errorStatus (.response 401 none none none) = some 401 ∧
    (onResponseError
        { url := "/api/users/profile", retryFlag := false, authHeader := none }
        (.response 401 none none none)
        { token := some "t0", refreshToken := some "r0" }
        (.transportReject
          { code := .NETWORK_ERROR, message := "Network error occurred",
            details := none }) true =
        (.rejectedWith (handleError (.response 401 none none none)),
          clearTokensFromStorage, 1, 1) ∧
      onResponseError
        { url := "/api/users/profile", retryFlag := false, authHeader := none }
        (.response 401 none none none)
        { token := some "t0", refreshToken := some "r0" }
        .rejectedEnvelope true =
        (.rejectedWith (handleError (.response 401 none none none)),
          clearTokensFromStorage, 1, 0)) :=
  ⟨rfl, rfl, rfl,
    interceptor_refresh_failure_paths _ _ _ _ _ rfl rfl rfl⟩

/-- Claim C9 counterexample: `register` against a `success:false` envelope
fails with the plain `new Error(message)` — a bare message-only error that
is not in the normalized `{code, message, details?}` shape. -/
theorem register_envelope_failure_is_bare_error :
    register { token := none, refreshToken := none }
        (.failureEnvelope (some "Email already exists")) =
      (.error (.bareError "Email already exists"),
        { token := none, refreshToken := none }) ∧
    ServiceFailure.isNormalized (.bareError "Email already exists") = false :=
  ⟨rfl, rfl⟩

/-- Claim C9 amended: failures that cross the transport boundary are
normalized: a rejected request surfaces as an `AuthError` in the taxonomy,
a server error code outside the mapped vocabulary normalizes to
`UNKNOWN_ERROR`, and a connectivity failure with no response normalizes to
`NETWORK_ERROR`; but a `success:false` envelope on a resolved response
makes the operation throw a plain message-only error instead. -/
theorem service_error_normalization (st : Creds) (e : AxiosError) (s : String)
    (msg : Option String)
    (hs : s ≠ "INVALID_CREDENTIALS" ∧ s ≠ "TOKEN_EXPIRED" ∧
      s ≠ "INSUFFICIENT_PERMISSIONS" ∧ s ≠ "VALIDATION_ERROR" ∧
      s ≠ "USER_NOT_FOUND" ∧ s ≠ "EMAIL_ALREADY_EXISTS") :
    (register st (.transportReject (handleError e))).1 =
      .error (.authError (handleError e)) ∧
    ServiceFailure.isNormalized (.authError (handleError e)) = true ∧
    mapErrorCode s = .UNKNOWN_ERROR ∧
    (handleError .request).code = .NETWORK_ERROR ∧
    (register st (.failureEnvelope msg)).1 =
      .error (.bareError (msg.getD "Registration failed")) := by
  obtain ⟨h1, h2, h3, h4, h5, h6⟩ := hs
  exact ⟨rfl, rfl, by simp [mapErrorCode, h1, h2, h3, h4, h5, h6], rfl, rfl⟩

/-- Claim C9 witness: the amended theorem at an empty credential state, a
connectivity error, the unmapped server code "SOMETHING_ELSE", and a
concrete envelope message. -/
theorem service_error_normalization_witness :
    (("SOMETHING_ELSE" : String) ≠ "INVALID_CREDENTIALS" ∧
      ("SOMETHING_ELSE" : String) ≠ "TOKEN_EXPIRED" ∧
      ("SOMETHING_ELSE" : String) ≠ "INSUFFICIENT_PERMISSIONS" ∧
      ("SOMETHING_ELSE" : String) ≠ "VALIDATION_ERROR" ∧
      ("SOMETHING_ELSE" : String) ≠ "USER_NOT_FOUND" ∧
      ("SOMETHING_ELSE" : String) ≠ "EMAIL_ALREADY_EXISTS") ∧
    ((register { token := none, refreshToken := none }
          (.transportReject (handleError .request))).1 =
        .error (.authError (handleError .request)) ∧
      ServiceFailure.isNormalized (.authError (handleError .request)) = true ∧
      mapErrorCode "SOMETHING_ELSE" = .UNKNOWN_ERROR ∧
      (handleError .request).code = .NETWORK_ERROR ∧
      (register { token := none, refreshToken := none }
          (.failureEnvelope (some "Bad input"))).1 =
        .error (.bareError "Bad input")) :=
  ⟨by decide,
    service_error_normalization { token := none, refreshToken := none }
      .request "SOMETHING_ELSE" (some "Bad input") (by decide)⟩

/-- Claim C1: two in-flight requests that both receive a 401 while a
refresh token is stored trigger two independent refresh network calls —
the source's per-request `_retry` marker does not coordinate concurrent
handlers — even though each request is then retried once with the
refreshed token; the single-flight requirement of the specification is
violated by the code. -/
theorem concurrent_401s_trigger_two_refresh_calls :
    handleConcurrent401s
      [{ url := "/api/users/profile", retryFlag := false, authHeader := none },
       { url := "/api/users/stats", retryFlag := false, authHeader := none }]
      { token := some "t0", refreshToken := some "r0" } (.success "t1") true =
      ([InterceptOutcome.retried
          { url := "/api/users/profile", retryFlag := true,
            authHeader := some "Bearer t1" },
        InterceptOutcome.retried
          { url := "/api/users/stats", retryFlag := true,
            authHeader := some "Bearer t1" }],
        { token := some "t1", refreshToken := some "r0" }, 2, 0) ∧
    (2 : Nat) ≠ 1 :=
  ⟨rfl, by decide⟩

end AuthSDK
